import Mathlib

/-!
# Global allocation layer and allocator-extended tuple construction

A shallow embedding of `libcxxabi/src/stdlib_new_delete.cpp` (the global
`operator new` / `operator delete` family) and of the construction protocol
exercised by `tuple.cnstr/alloc_move.pass.cpp`.

The platform (`malloc`, `posix_memalign`, `_aligned_malloc`, `free`,
`_aligned_free`, the code behind a new-handler function pointer) is a
parameter.  The unbounded retry loops take a fuel argument that bounds the
number of loop iterations.  Every function reports, next to its outcome and
the world it leaves, the platform calls it made, in order; the outcome `none`
means that the fuel ran out before the function finished.
-/

namespace NewDelete

/-- An address; `0` is the null pointer. -/
abbrev Ptr := Nat

/-- Exceptions that can travel through the allocation functions. -/
inductive Exn where
  | bad_alloc
  | other (code : Nat)
  deriving DecidableEq, Repr

/-- How a call of one of the allocation functions ends. -/
inductive Outcome (α : Type) where
  | ret (v : α)
  | throw (e : Exn)
  | terminated
  deriving DecidableEq, Repr

/-- How a call of a new-handler ends: it returns, it throws, or it ends the
process (`abort`, `exit`). -/
inductive HandlerExit where
  | returned
  | threw (e : Exn)
  | no_return
  deriving DecidableEq, Repr

/-- The preprocessor configuration of the translation unit:
`exceptions` is "`_LIBCXXABI_NO_EXCEPTIONS` is not defined",
`win32api` is "`_LIBCUDACXX_WIN32API` is defined". -/
structure Build where
  exceptions : Bool
  win32api : Bool
  deriving DecidableEq, Repr

/-- The process state the functions act on: the platform allocator's state and
the process-wide new-handler slot (`0` when no handler is installed). -/
structure World (H : Type) where
  heap : H
  new_handler : Nat
  deriving DecidableEq

/-- The platform primitives.  `malloc` and `aligned_malloc` return the null
pointer on failure; `posix_memalign alignment size` returns its status code and
the value found in `*memptr` afterwards (unspecified on failure); `call nh`
runs the function a handler pointer designates. -/
structure Platform (H : Type) where
  sizeof_voidp : Nat
  malloc : Nat → H → Ptr × H
  posix_memalign : Nat → Nat → H → (Int × Ptr) × H
  aligned_malloc : Nat → Nat → H → Ptr × H
  free : Ptr → H → H
  aligned_free : Ptr → H → H
  call : Nat → World H → HandlerExit × World H

/-- One observable platform call. -/
inductive Event where
  | malloc (size : Nat) (result : Ptr)
  | posix_memalign (alignment size : Nat) (rc : Int) (memptr : Ptr)
  | aligned_malloc (size alignment : Nat) (result : Ptr)
  | new_handler (nh : Nat)
  | free (p : Ptr)
  | aligned_free (p : Ptr)
  deriving DecidableEq, Repr

/-- A run: outcome (`none` while unfinished), world reached, platform calls
made so far. -/
abbrev Run (H : Type) := Option (Outcome Ptr) × World H × List Event

variable {H : Type}

/-- `std::get_new_handler()`. -/
def get_new_handler (w : World H) : Nat := w.new_handler

/-- The call `nh()`: the function the handler pointer designates is run; what
it does, an exception it throws included, reaches the caller as it is. -/
def call_new_handler (P : Platform H) (nh : Nat) (w : World H) : HandlerExit × World H :=
  P.call nh w

/-- Put the calls made so far in front of those of the rest of the run. -/
def emit (evs : List Event) (r : Run H) : Run H :=
  (r.1, r.2.1, evs ++ r.2.2)

/-- The loop of `operator new(std::size_t)`:
`while ((p = ::malloc(size)) == 0) { nh = get_new_handler(); if (nh) nh(); else throw / break; }`
followed by `return p`. -/
def operator_new_loop (cfg : Build) (P : Platform H) (size : Nat) :
    Nat → World H → Run H
  | 0, w => (none, w, [])
  | fuel + 1, w =>
    let r := P.malloc size w.heap
    let p := r.1
    let w1 : World H := ⟨r.2, w.new_handler⟩
    if p = 0 then
      let nh := get_new_handler w1
      if nh ≠ 0 then
        match call_new_handler P nh w1 with
        | (.returned, w2) =>
          emit [.malloc size p, .new_handler nh] (operator_new_loop cfg P size fuel w2)
        | (.threw e, w2) => (some (.throw e), w2, [.malloc size p, .new_handler nh])
        | (.no_return, w2) => (some .terminated, w2, [.malloc size p, .new_handler nh])
      else if cfg.exceptions then
        (some (.throw .bad_alloc), w1, [.malloc size p])
      else
        (some (.ret p), w1, [.malloc size p])
    else
      (some (.ret p), w1, [.malloc size p])

/-- `void* operator new(std::size_t size)`. -/
def operator_new (cfg : Build) (P : Platform H) (fuel : Nat) (size : Nat) (w : World H) :
    Run H :=
  let size := if size = 0 then 1 else size
  operator_new_loop cfg P size fuel w

/-- The body shared by the four nothrow forms:
`void* p = 0; try { p = <throwing form>; } catch (...) { } return p;`
with the `try`/`catch` present only when exceptions are enabled.  The
`noexcept` of the signatures is not turned into a conversion of outcomes: that
nothing is raised is a property to prove. -/
def nothrow_body (cfg : Build) (r : Run H) : Run H :=
  match r with
  | (some (.throw e), w, l) =>
    if cfg.exceptions then (some (.ret 0), w, l) else (some (.throw e), w, l)
  | r => r

/-- `void* operator new(size_t size, const std::nothrow_t&)`. -/
def operator_new_nothrow (cfg : Build) (P : Platform H) (fuel : Nat) (size : Nat)
    (w : World H) : Run H :=
  nothrow_body cfg (operator_new cfg P fuel size w)

/-- `void* operator new[](size_t size)`. -/
def operator_new_array (cfg : Build) (P : Platform H) (fuel : Nat) (size : Nat)
    (w : World H) : Run H :=
  operator_new cfg P fuel size w

/-- `void* operator new[](size_t size, const std::nothrow_t&)`. -/
def operator_new_array_nothrow (cfg : Build) (P : Platform H) (fuel : Nat) (size : Nat)
    (w : World H) : Run H :=
  nothrow_body cfg (operator_new_array cfg P fuel size w)

/-- `void operator delete(void* ptr)`: `if (ptr) ::free(ptr);`. -/
def operator_delete (P : Platform H) (ptr : Ptr) (w : World H) : World H × List Event :=
  if ptr ≠ 0 then (⟨P.free ptr w.heap, w.new_handler⟩, [.free ptr]) else (w, [])

/-- `void operator delete(void* ptr, const std::nothrow_t&)`. -/
def operator_delete_nothrow (P : Platform H) (ptr : Ptr) (w : World H) :
    World H × List Event :=
  operator_delete P ptr w

/-- `void operator delete(void* ptr, size_t)`. -/
def operator_delete_sized (P : Platform H) (ptr : Ptr) (_size : Nat) (w : World H) :
    World H × List Event :=
  operator_delete P ptr w

/-- `void operator delete[](void* ptr)`. -/
def operator_delete_array (P : Platform H) (ptr : Ptr) (w : World H) :
    World H × List Event :=
  operator_delete P ptr w

/-- `void operator delete[](void* ptr, const std::nothrow_t&)`. -/
def operator_delete_array_nothrow (P : Platform H) (ptr : Ptr) (w : World H) :
    World H × List Event :=
  operator_delete_array P ptr w

/-- `void operator delete[](void* ptr, size_t)`. -/
def operator_delete_array_sized (P : Platform H) (ptr : Ptr) (_size : Nat) (w : World H) :
    World H × List Event :=
  operator_delete_array P ptr w

/-- The loop of `operator new(std::size_t, std::align_val_t)`:
`_aligned_malloc` compared with `nullptr` under `_LIBCUDACXX_WIN32API`,
`posix_memalign` compared with `0` otherwise. -/
def operator_new_aligned_loop (cfg : Build) (P : Platform H) (size alignment : Nat) :
    Nat → World H → Run H
  | 0, w => (none, w, [])
  | fuel + 1, w =>
    if cfg.win32api then
      let r := P.aligned_malloc size alignment w.heap
      let p := r.1
      let w1 : World H := ⟨r.2, w.new_handler⟩
      if p = 0 then
        let nh := get_new_handler w1
        if nh ≠ 0 then
          match call_new_handler P nh w1 with
          | (.returned, w2) =>
            emit [.aligned_malloc size alignment p, .new_handler nh]
              (operator_new_aligned_loop cfg P size alignment fuel w2)
          | (.threw e, w2) =>
            (some (.throw e), w2, [.aligned_malloc size alignment p, .new_handler nh])
          | (.no_return, w2) =>
            (some .terminated, w2, [.aligned_malloc size alignment p, .new_handler nh])
        else if cfg.exceptions then
          (some (.throw .bad_alloc), w1, [.aligned_malloc size alignment p])
        else
          (some (.ret 0), w1, [.aligned_malloc size alignment p])
      else
        (some (.ret p), w1, [.aligned_malloc size alignment p])
    else
      let r := P.posix_memalign alignment size w.heap
      let rc := r.1.1
      let p := r.1.2
      let w1 : World H := ⟨r.2, w.new_handler⟩
      if rc ≠ 0 then
        let nh := get_new_handler w1
        if nh ≠ 0 then
          match call_new_handler P nh w1 with
          | (.returned, w2) =>
            emit [.posix_memalign alignment size rc p, .new_handler nh]
              (operator_new_aligned_loop cfg P size alignment fuel w2)
          | (.threw e, w2) =>
            (some (.throw e), w2, [.posix_memalign alignment size rc p, .new_handler nh])
          | (.no_return, w2) =>
            (some .terminated, w2, [.posix_memalign alignment size rc p, .new_handler nh])
        else if cfg.exceptions then
          (some (.throw .bad_alloc), w1, [.posix_memalign alignment size rc p])
        else
          (some (.ret 0), w1, [.posix_memalign alignment size rc p])
      else
        (some (.ret p), w1, [.posix_memalign alignment size rc p])

/-- `void* operator new(std::size_t size, std::align_val_t alignment)`. -/
def operator_new_aligned (cfg : Build) (P : Platform H) (fuel : Nat) (size alignment : Nat)
    (w : World H) : Run H :=
  let size := if size = 0 then 1 else size
  let alignment := if alignment < P.sizeof_voidp then P.sizeof_voidp else alignment
  operator_new_aligned_loop cfg P size alignment fuel w

/-- `void* operator new(size_t, std::align_val_t, const std::nothrow_t&)`. -/
def operator_new_aligned_nothrow (cfg : Build) (P : Platform H) (fuel : Nat)
    (size alignment : Nat) (w : World H) : Run H :=
  nothrow_body cfg (operator_new_aligned cfg P fuel size alignment w)

/-- `void* operator new[](size_t size, std::align_val_t alignment)`. -/
def operator_new_array_aligned (cfg : Build) (P : Platform H) (fuel : Nat)
    (size alignment : Nat) (w : World H) : Run H :=
  operator_new_aligned cfg P fuel size alignment w

/-- `void* operator new[](size_t, std::align_val_t, const std::nothrow_t&)`. -/
def operator_new_array_aligned_nothrow (cfg : Build) (P : Platform H) (fuel : Nat)
    (size alignment : Nat) (w : World H) : Run H :=
  nothrow_body cfg (operator_new_array_aligned cfg P fuel size alignment w)

/-- `void operator delete(void* ptr, std::align_val_t)`:
`if (ptr) ::_aligned_free(ptr);` under `_LIBCUDACXX_WIN32API`,
`if (ptr) ::free(ptr);` otherwise. -/
def operator_delete_aligned (cfg : Build) (P : Platform H) (ptr : Ptr) (_alignment : Nat)
    (w : World H) : World H × List Event :=
  if ptr ≠ 0 then
    if cfg.win32api then (⟨P.aligned_free ptr w.heap, w.new_handler⟩, [.aligned_free ptr])
    else (⟨P.free ptr w.heap, w.new_handler⟩, [.free ptr])
  else (w, [])

/-- `void operator delete(void* ptr, std::align_val_t, const std::nothrow_t&)`. -/
def operator_delete_aligned_nothrow (cfg : Build) (P : Platform H) (ptr : Ptr)
    (alignment : Nat) (w : World H) : World H × List Event :=
  operator_delete_aligned cfg P ptr alignment w

/-- `void operator delete(void* ptr, size_t, std::align_val_t alignment)`. -/
def operator_delete_sized_aligned (cfg : Build) (P : Platform H) (ptr : Ptr) (_size : Nat)
    (alignment : Nat) (w : World H) : World H × List Event :=
  operator_delete_aligned cfg P ptr alignment w

/-- `void operator delete[](void* ptr, std::align_val_t alignment)`. -/
def operator_delete_array_aligned (cfg : Build) (P : Platform H) (ptr : Ptr)
    (alignment : Nat) (w : World H) : World H × List Event :=
  operator_delete_aligned cfg P ptr alignment w

/-- `void operator delete[](void* ptr, std::align_val_t, const std::nothrow_t&)`. -/
def operator_delete_array_aligned_nothrow (cfg : Build) (P : Platform H) (ptr : Ptr)
    (alignment : Nat) (w : World H) : World H × List Event :=
  operator_delete_array_aligned cfg P ptr alignment w

/-- `void operator delete[](void* ptr, size_t, std::align_val_t alignment)`. -/
def operator_delete_array_sized_aligned (cfg : Build) (P : Platform H) (ptr : Ptr)
    (_size : Nat) (alignment : Nat) (w : World H) : World H × List Event :=
  operator_delete_array_aligned cfg P ptr alignment w

/-! ## Vocabulary for stating the properties -/

/-- The number of bytes a request of `size` bytes asks the platform for. -/
def requested_bytes (size : Nat) : Nat := if size = 0 then 1 else size

/-- The alignment passed on for a requested `alignment`. -/
def effective_alignment (P : Platform H) (alignment : Nat) : Nat :=
  max alignment P.sizeof_voidp

/-- One call of the unaligned allocation primitive: the pointer when it
succeeded, the heap it leaves, the call as an event. -/
def attempt_unaligned (P : Platform H) (size : Nat) (h : H) : Option Ptr × H × Event :=
  ((if (P.malloc size h).1 = 0 then none else some (P.malloc size h).1),
    (P.malloc size h).2, .malloc size (P.malloc size h).1)

/-- One call of the alignment-aware allocation primitive of the build. -/
def attempt_aligned (cfg : Build) (P : Platform H) (size alignment : Nat) (h : H) :
    Option Ptr × H × Event :=
  if cfg.win32api then
    ((if (P.aligned_malloc size alignment h).1 = 0 then none
      else some (P.aligned_malloc size alignment h).1),
      (P.aligned_malloc size alignment h).2,
      .aligned_malloc size alignment (P.aligned_malloc size alignment h).1)
  else
    ((if (P.posix_memalign alignment size h).1.1 ≠ 0 then none
      else some (P.posix_memalign alignment size h).1.2),
      (P.posix_memalign alignment size h).2,
      .posix_memalign alignment size (P.posix_memalign alignment size h).1.1
        (P.posix_memalign alignment size h).1.2)

/-- The retry loop over an arbitrary attempt; both loops of the source are
instances of it (`operator_new_loop_eq`, `operator_new_aligned_loop_eq`). -/
def retry_loop (cfg : Build) (P : Platform H) (att : H → Option Ptr × H × Event) :
    Nat → World H → Run H
  | 0, w => (none, w, [])
  | fuel + 1, w =>
    match (att w.heap).1 with
    | some p => (some (.ret p), ⟨(att w.heap).2.1, w.new_handler⟩, [(att w.heap).2.2])
    | none =>
      if w.new_handler ≠ 0 then
        match call_new_handler P w.new_handler ⟨(att w.heap).2.1, w.new_handler⟩ with
        | (.returned, w2) =>
          emit [(att w.heap).2.2, .new_handler w.new_handler] (retry_loop cfg P att fuel w2)
        | (.threw e, w2) =>
          (some (.throw e), w2, [(att w.heap).2.2, .new_handler w.new_handler])
        | (.no_return, w2) =>
          (some .terminated, w2, [(att w.heap).2.2, .new_handler w.new_handler])
      else if cfg.exceptions then
        (some (.throw .bad_alloc), ⟨(att w.heap).2.1, w.new_handler⟩, [(att w.heap).2.2])
      else
        (some (.ret 0), ⟨(att w.heap).2.1, w.new_handler⟩, [(att w.heap).2.2])

/-- The world after `k` rounds of "the attempt fails, a handler is installed,
the handler returns normally", `none` when the first `k` attempts do not all go
that way. -/
def failed_rounds (P : Platform H) (att : H → Option Ptr × H × Event) :
    Nat → World H → Option (World H)
  | 0, w => some w
  | k + 1, w =>
    match (att w.heap).1 with
    | some _ => none
    | none =>
      if w.new_handler = 0 then none
      else
        match call_new_handler P w.new_handler ⟨(att w.heap).2.1, w.new_handler⟩ with
        | (.returned, w2) => failed_rounds P att k w2
        | _ => none

/-- The platform calls made during the first `k` rounds of the retry loop. -/
def rounds_trace (P : Platform H) (att : H → Option Ptr × H × Event) :
    Nat → World H → List Event
  | 0, _ => []
  | k + 1, w =>
    (att w.heap).2.2 :: .new_handler w.new_handler ::
      rounds_trace P att k
        (call_new_handler P w.new_handler ⟨(att w.heap).2.1, w.new_handler⟩).2

/-- The event is a call of an allocation primitive. -/
def is_attempt : Event → Bool
  | .malloc _ _ => true
  | .posix_memalign _ _ _ _ => true
  | .aligned_malloc _ _ _ => true
  | _ => false

/-- The event is a call of an allocation primitive that failed. -/
def is_failed_attempt : Event → Bool
  | .malloc _ p => p == 0
  | .posix_memalign _ _ rc _ => rc != 0
  | .aligned_malloc _ _ p => p == 0
  | _ => false

/-- The event is an invocation of a new-handler. -/
def is_handler : Event → Bool
  | .new_handler _ => true
  | _ => false

/-- The event is a release call. -/
def is_release : Event → Bool
  | .free _ => true
  | .aligned_free _ => true
  | _ => false

/-- An allocation call in the event asks for `n` bytes (other events are
not constrained). -/
def asks_for (n : Nat) : Event → Bool
  | .malloc s _ => s == n
  | .posix_memalign _ s _ _ => s == n
  | .aligned_malloc s _ _ => s == n
  | _ => true

/-- An alignment-aware allocation call in the event passes alignment `a`
(other events are not constrained). -/
def aligns_to (a : Nat) : Event → Bool
  | .posix_memalign x _ _ _ => x == a
  | .aligned_malloc _ x _ => x == a
  | _ => true

/-- A trace of the shape: failed attempt, handler, failed attempt, handler, ...,
attempt. -/
def retry_shape : List Event → Bool
  | [] => false
  | [e] => is_attempt e
  | a :: h :: rest => is_failed_attempt a && is_handler h && retry_shape rest

/-- What a deallocation is to do, in the words of the specification: nothing
for the null pointer; otherwise one call of the release primitive with the
pointer, the distinct aligned release when `aligned_release` is set. -/
def release_spec (P : Platform H) (aligned_release : Bool) (ptr : Ptr) (w : World H) :
    World H × List Event :=
  if ptr = 0 then (w, [])
  else if aligned_release then (⟨P.aligned_free ptr w.heap, w.new_handler⟩, [.aligned_free ptr])
  else (⟨P.free ptr w.heap, w.new_handler⟩, [.free ptr])

/-- What POSIX promises of a successful `posix_memalign` for a positive
size: the stored pointer is not null. -/
def PosixNonNull (P : Platform H) : Prop :=
  ∀ a n h, 0 < n → (P.posix_memalign a n h).1.1 = 0 → (P.posix_memalign a n h).1.2 ≠ 0

/-- The alignment-aware primitives return addresses that are multiples of the
alignment they are given. -/
def ReturnsAligned (P : Platform H) : Prop :=
  (∀ a n h, (P.posix_memalign a n h).1.1 = 0 → a ∣ (P.posix_memalign a n h).1.2) ∧
  (∀ a n h, a ∣ (P.aligned_malloc n a h).1)

/-! ## A concrete platform -/

/-- A small allocator state: how many allocation attempts will still fail, the
next free address, the pointers released so far. -/
structure DemoHeap where
  failures : Nat
  next : Nat
  released : List Ptr
  deriving DecidableEq, Repr

/-- A bump allocator over `DemoHeap` with six handlers: `1` returns,
`2` clears the handler slot and returns, `3` throws, `4` installs handler `1`
and returns, `5` ends the process, `6` installs handler `2` and returns. -/
def demo : Platform DemoHeap where
  sizeof_voidp := 8
  malloc := fun n h =>
    if h.failures = 0 then (h.next, ⟨0, h.next + n, h.released⟩)
    else (0, ⟨h.failures - 1, h.next, h.released⟩)
  posix_memalign := fun a n h =>
    if a = 0 ∨ h.failures ≠ 0 then ((12, 0), ⟨h.failures - 1, h.next, h.released⟩)
    else ((0, a * (h.next / a + 1)), ⟨0, a * (h.next / a + 1) + n, h.released⟩)
  aligned_malloc := fun n a h =>
    if a = 0 ∨ h.failures ≠ 0 then (0, ⟨h.failures - 1, h.next, h.released⟩)
    else (a * (h.next / a + 1), ⟨0, a * (h.next / a + 1) + n, h.released⟩)
  free := fun p h => ⟨h.failures, h.next, p :: h.released⟩
  aligned_free := fun p h => ⟨h.failures, h.next, p :: h.released⟩
  call := fun nh w =>
    match nh with
    | 2 => (.returned, ⟨w.heap, 0⟩)
    | 3 => (.threw (.other 7), w)
    | 4 => (.returned, ⟨w.heap, 1⟩)
    | 5 => (.no_return, w)
    | 6 => (.returned, ⟨w.heap, 2⟩)
    | _ => (.returned, w)

/-- A world over `demo`: `failures` attempts fail first, handler `nh` is
installed, the free store starts at address 4096. -/
def demo_world (failures nh : Nat) : World DemoHeap := ⟨⟨failures, 4096, []⟩, nh⟩

/-- POSIX build with exceptions. -/
def posix_exc : Build := ⟨true, false⟩

/-- POSIX build without exceptions. -/
def posix_noexc : Build := ⟨false, false⟩

/-- Win32 build with exceptions. -/
def win32_exc : Build := ⟨true, true⟩

end NewDelete

/-! ## Allocator-extended tuple construction -/

namespace TupleAlloc

/-- Modelled from the spec: the element types the test instantiates the tuple
with (`MoveOnly.h`, `alloc_first.h`, `alloc_last.h` are not among the sources):
a type with no allocator awareness, a type constructible from
`(tag, allocator, argument)`, a type constructible from `(argument, allocator)`. -/
inductive ElemType where
  | plain
  | tag_leading
  | trailing
  deriving DecidableEq, Repr

/-- Modelled from the spec: a stored element, its declared type and the value it
holds. -/
structure Elem where
  ty : ElemType
  data : Int
  deriving DecidableEq, Repr

/-- Modelled from the spec: the three construction forms of an element. -/
inductive Form where
  | tag_allocator_argument
  | argument_allocator
  | argument_only
  deriving DecidableEq, Repr

/-- Modelled from the spec: the element type accepts `(tag, allocator, argument)`. -/
def tag_constructible : ElemType → Bool
  | .tag_leading => true
  | _ => false

/-- Modelled from the spec: the element type accepts `(argument, allocator)`. -/
def trailing_constructible : ElemType → Bool
  | .trailing => true
  | _ => false

/-- Modelled from the spec: the three-way dispatch of section 4.2, made from the
element type's declared capability. -/
def choose_form (t : ElemType) : Form :=
  if tag_constructible t then .tag_allocator_argument
  else if trailing_constructible t then .argument_allocator
  else .argument_only

/-- Modelled from the spec: the probes the test reads,
`alloc_first::allocator_constructed()` and `alloc_last::allocator_constructed()`. -/
structure Probes where
  alloc_first_constructed : Bool
  alloc_last_constructed : Bool
  deriving DecidableEq, Repr

/-- Modelled from the spec: one invocation of an element constructor: the form
used, the allocator handed to it (none for the plain form), the argument. -/
structure CtorCall where
  form : Form
  allocator : Option Nat
  argument : Int
  deriving DecidableEq, Repr

/-- Modelled from the spec: an allocator-accepting constructor of a probe type
records that it ran. -/
def record_allocator_constructed (t : ElemType) (pr : Probes) : Probes :=
  match t with
  | .tag_leading => ⟨true, pr.alloc_last_constructed⟩
  | .trailing => ⟨pr.alloc_first_constructed, true⟩
  | .plain => pr

/-- Modelled from the spec: construction of one element from the moved source
element under allocator `a`. -/
def construct_element (a : Nat) (src : Elem) (pr : Probes) : Elem × Probes × CtorCall :=
  match choose_form src.ty with
  | .tag_allocator_argument =>
    (⟨src.ty, src.data⟩, record_allocator_constructed src.ty pr,
      ⟨.tag_allocator_argument, some a, src.data⟩)
  | .argument_allocator =>
    (⟨src.ty, src.data⟩, record_allocator_constructed src.ty pr,
      ⟨.argument_allocator, some a, src.data⟩)
  | .argument_only => (⟨src.ty, src.data⟩, pr, ⟨.argument_only, none, src.data⟩)

/-- Modelled from the spec: `tuple(allocator_arg_t, const Alloc& a, tuple&&)`, the
allocator-extended move constructor (the tuple header is not among the
sources): elements are constructed in declaration order, each by the form its
type selects.  Returns the new tuple, the probes, the constructor calls made. -/
def tuple_alloc_move (a : Nat) : List Elem → Probes → List Elem × Probes × List CtorCall
  | [], pr => ([], pr, [])
  | e :: es, pr =>
    let r := construct_element a e pr
    let rest := tuple_alloc_move a es r.2.1
    (r.1 :: rest.1, rest.2.1, r.2.2 :: rest.2.2)

/-- Modelled from the spec: `get<i>(t)`, as the value at position `i`. -/
def get (i : Nat) (t : List Elem) : Option Int := (t.get? i).map Elem.data

end TupleAlloc

namespace NewDelete
variable {H : Type}

theorem operator_new_loop_eq (cfg : Build) (P : Platform H) (size : Nat) (fuel : Nat)
    (w : World H) :
    operator_new_loop cfg P size fuel w = retry_loop cfg P (attempt_unaligned P size) fuel w := by
  induction fuel generalizing w with
  | zero => rfl
  | succ n ih =>
    simp only [operator_new_loop, retry_loop, attempt_unaligned, get_new_handler]
    by_cases hp : (P.malloc size w.heap).1 = 0
    · simp only [hp, if_true]
      by_cases hn : w.new_handler = 0
      · simp [hn]
      · simp only [ne_eq, hn, not_false_eq_true, if_true]
        split <;> simp_all
    · simp [hp]

theorem operator_new_aligned_loop_eq (cfg : Build) (P : Platform H) (size alignment : Nat)
    (fuel : Nat) (w : World H) :
    operator_new_aligned_loop cfg P size alignment fuel w
      = retry_loop cfg P (attempt_aligned cfg P size alignment) fuel w := by
  induction fuel generalizing w with
  | zero => rfl
  | succ n ih =>
    simp only [operator_new_aligned_loop, retry_loop, attempt_aligned, get_new_handler]
    by_cases hw : cfg.win32api = true
    · simp only [hw, if_true]
      by_cases hp : (P.aligned_malloc size alignment w.heap).1 = 0
      · simp only [hp, if_true]
        by_cases hn : w.new_handler = 0
        · simp [hn]
        · simp only [ne_eq, hn, not_false_eq_true, if_true]
          split <;> simp_all [attempt_aligned]
      · simp [hp]
    · simp only [hw, if_false]
      by_cases hp : (P.posix_memalign alignment size w.heap).1.1 = 0
      · simp [hp]
      · simp only [ne_eq, hp, not_false_eq_true, if_true]
        by_cases hn : w.new_handler = 0
        · simp [hn]
        · simp only [hn, not_false_eq_true, if_true]
          split <;> simp_all [attempt_aligned]

theorem retry_loop_events (cfg : Build) (P : Platform H) (att : H → Option Ptr × H × Event)
    (fuel : Nat) (w : World H) :
    ∀ e ∈ (retry_loop cfg P att fuel w).2.2, is_handler e = true ∨ ∃ h, e = (att h).2.2 := by
  induction fuel generalizing w with
  | zero => intro e he; simp [retry_loop] at he
  | succ n ih =>
    intro e he
    simp only [retry_loop] at he
    split at he
    · simp at he; exact Or.inr ⟨_, he⟩
    · split at he
      · split at he
        · simp only [emit, List.cons_append, List.nil_append, List.mem_cons] at he
          rcases he with he | he | he
          · exact Or.inr ⟨_, he⟩
          · subst he; exact Or.inl rfl
          · exact ih _ e he
        · simp only [List.mem_cons, List.mem_singleton, List.not_mem_nil, or_false] at he
          rcases he with he | he
          · exact Or.inr ⟨_, he⟩
          · subst he; exact Or.inl rfl
        · simp only [List.mem_cons, List.mem_singleton, List.not_mem_nil, or_false] at he
          rcases he with he | he
          · exact Or.inr ⟨_, he⟩
          · subst he; exact Or.inl rfl
      · split at he <;> (simp at he; exact Or.inr ⟨_, he⟩)

theorem retry_loop_rounds (cfg : Build) (P : Platform H) (att : H → Option Ptr × H × Event)
    (k m : Nat) (w wk : World H) (hr : failed_rounds P att k w = some wk) :
    retry_loop cfg P att (k + m) w
      = emit (rounds_trace P att k w) (retry_loop cfg P att m wk) := by
  induction k generalizing w with
  | zero =>
    simp only [failed_rounds, Option.some.injEq] at hr
    subst hr
    simp [rounds_trace, emit]
  | succ n ih =>
    simp only [failed_rounds] at hr
    split at hr
    · exact absurd hr (by simp)
    · rename_i hnone
      split at hr
      · exact absurd hr (by simp)
      · rename_i hnh
        split at hr
        · rename_i w2 hcall
          have := ih w2 hr
          rw [show n + 1 + m = (n + m) + 1 by omega]
          simp only [retry_loop, hnone, ne_eq, hnh, not_false_eq_true, if_true, hcall, this,
            rounds_trace, emit, List.cons_append, List.nil_append]
        · exact absurd hr (by simp)

theorem rounds_trace_length (P : Platform H)
    (att : H → Option Ptr × H × Event) (k : Nat) (w : World H) :
    (rounds_trace P att k w).length = 2 * k := by
  induction k generalizing w with
  | zero => rfl
  | succ n ih => simp only [rounds_trace, List.length_cons, ih]; omega

theorem rounds_trace_handlers (P : Platform H)
    (att : H → Option Ptr × H × Event) (hnh : ∀ h, is_handler (att h).2.2 = false)
    (k : Nat) (w : World H) :
    (rounds_trace P att k w).countP is_handler = k := by
  induction k generalizing w with
  | zero => rfl
  | succ n ih =>
    have h1 : ∀ x, is_handler (.new_handler x) = true := fun _ => rfl
    simp [rounds_trace, List.countP_cons, ih, hnh, h1]

theorem rounds_trace_attempts (P : Platform H)
    (att : H → Option Ptr × H × Event) (hatt : ∀ h, is_attempt (att h).2.2 = true)
    (k : Nat) (w : World H) :
    (rounds_trace P att k w).countP is_attempt = k := by
  induction k generalizing w with
  | zero => rfl
  | succ n ih =>
    have h1 : ∀ x, is_attempt (.new_handler x) = false := fun _ => rfl
    simp [rounds_trace, List.countP_cons, ih, hatt, h1]

theorem rounds_trace_shape (P : Platform H)
    (att : H → Option Ptr × H × Event)
    (hfail : ∀ h, (att h).1 = none → is_failed_attempt (att h).2.2 = true)
    (k : Nat) (w wk : World H) (hr : failed_rounds P att k w = some wk)
    (ev : Event) (hev : is_attempt ev = true) :
    retry_shape (rounds_trace P att k w ++ [ev]) = true := by
  induction k generalizing w with
  | zero => simpa [rounds_trace, retry_shape] using hev
  | succ n ih =>
    simp only [failed_rounds] at hr
    split at hr
    · exact absurd hr (by simp)
    · rename_i hnone
      split at hr
      · exact absurd hr (by simp)
      · split at hr
        · rename_i w2 hcall
          simp only [rounds_trace, List.cons_append, retry_shape, hfail _ hnone, is_handler,
            Bool.true_and, hcall]
          exact ih w2 hr
        · exact absurd hr (by simp)

theorem retry_loop_ret (cfg : Build) (P : Platform H) (att : H → Option Ptr × H × Event)
    (fuel : Nat) (w : World H) (p : Ptr)
    (hret : (retry_loop cfg P att fuel w).1 = some (.ret p))
    (hp : cfg.exceptions = true ∨ p ≠ 0) :
    ∃ h, (att h).1 = some p ∧
      (retry_loop cfg P att fuel w).2.2.getLast? = some (att h).2.2 := by
  induction fuel generalizing w with
  | zero => simp [retry_loop] at hret
  | succ n ih =>
    rcases hatt : (att w.heap).1 with _ | q
    · by_cases hnh : w.new_handler = 0
      · by_cases hexc : cfg.exceptions = true
        · simp [retry_loop, hatt, hnh, hexc] at hret
        · rcases hp with hp | hp
          · exact absurd hp hexc
          · simp [retry_loop, hatt, hnh, hexc] at hret
            exact absurd hret.symm hp
      · rcases hcall : call_new_handler P w.new_handler
            ⟨(att w.heap).2.1, w.new_handler⟩ with ⟨x, w2⟩
        cases x with
        | returned =>
          simp only [retry_loop, hatt, hnh, ne_eq, not_false_eq_true, if_true, hcall, emit]
            at hret ⊢
          obtain ⟨h, h1, h2⟩ := ih w2 hret
          refine ⟨h, h1, ?_⟩
          rw [List.getLast?_append, h2]
          rfl
        | threw e => simp [retry_loop, hatt, hnh, hcall] at hret
        | no_return => simp [retry_loop, hatt, hnh, hcall] at hret
    · simp only [retry_loop, hatt, Option.some.injEq, Outcome.ret.injEq] at hret ⊢
      subst hret
      exact ⟨w.heap, hatt, by simp⟩

theorem operator_new_eq (cfg : Build) (P : Platform H) (fuel size : Nat) (w : World H) :
    operator_new cfg P fuel size w
      = retry_loop cfg P (attempt_unaligned P (requested_bytes size)) fuel w := by
  simp only [operator_new, requested_bytes, operator_new_loop_eq]

theorem operator_new_aligned_eq (cfg : Build) (P : Platform H) (fuel size alignment : Nat)
    (w : World H) :
    operator_new_aligned cfg P fuel size alignment w
      = retry_loop cfg P
          (attempt_aligned cfg P (requested_bytes size) (effective_alignment P alignment))
          fuel w := by
  have hmax : (if alignment < P.sizeof_voidp then P.sizeof_voidp else alignment)
      = max alignment P.sizeof_voidp := by
    by_cases h : alignment < P.sizeof_voidp
    · simp [h, Nat.max_eq_right (Nat.le_of_lt h)]
    · simp [h, Nat.max_eq_left (Nat.le_of_not_lt h)]
  simp only [operator_new_aligned, requested_bytes, effective_alignment,
    operator_new_aligned_loop_eq, hmax]

theorem attempt_unaligned_event (P : Platform H) (n : Nat) (h : H) :
    (attempt_unaligned P n h).2.2 = .malloc n (P.malloc n h).1 := rfl

theorem attempt_aligned_event (cfg : Build) (P : Platform H) (n a : Nat) (h : H) :
    (attempt_aligned cfg P n a h).2.2 =
      if cfg.win32api then .aligned_malloc n a (P.aligned_malloc n a h).1
      else .posix_memalign a n (P.posix_memalign a n h).1.1 (P.posix_memalign a n h).1.2 := by
  unfold attempt_aligned
  split <;> rfl

theorem asks_for_of_handler (n : Nat) (e : Event) (h : is_handler e = true) :
    asks_for n e = true := by
  cases e <;> simp_all [is_handler, asks_for]

theorem aligns_to_of_handler (a : Nat) (e : Event) (h : is_handler e = true) :
    aligns_to a e = true := by
  cases e <;> simp_all [is_handler, aligns_to]

theorem attempt_unaligned_some (P : Platform H) (n : Nat) (h : H) (p : Ptr)
    (hs : (attempt_unaligned P n h).1 = some p) :
    p ≠ 0 ∧ (attempt_unaligned P n h).2.2 = .malloc n p := by
  simp only [attempt_unaligned] at hs ⊢
  split at hs
  · simp at hs
  · rename_i hne
    simp only [Option.some.injEq] at hs
    subst hs
    exact ⟨hne, rfl⟩

theorem attempt_aligned_some (cfg : Build) (P : Platform H) (n a : Nat) (h : H) (p : Ptr)
    (hs : (attempt_aligned cfg P n a h).1 = some p) :
    (cfg.win32api = true ∧ p ≠ 0 ∧ p = (P.aligned_malloc n a h).1) ∨
    (cfg.win32api = false ∧ (P.posix_memalign a n h).1.1 = 0 ∧
      p = (P.posix_memalign a n h).1.2) := by
  unfold attempt_aligned at hs
  cases hw : cfg.win32api with
  | true =>
    simp only [hw, if_true] at hs
    by_cases hp : (P.aligned_malloc n a h).1 = 0
    · simp [hp] at hs
    · simp only [hp, if_false, Option.some.injEq] at hs
      exact Or.inl ⟨rfl, hs ▸ hp, hs.symm⟩
  | false =>
    simp only [hw, Bool.false_eq_true, if_false] at hs
    by_cases hrc : (P.posix_memalign a n h).1.1 = 0
    · simp only [hrc, ne_eq, not_true_eq_false, if_false, Option.some.injEq] at hs
      exact Or.inr ⟨rfl, hrc, hs.symm⟩
    · simp [hrc] at hs

theorem attempt_unaligned_kind (P : Platform H) (n : Nat) (h : H) :
    is_attempt (attempt_unaligned P n h).2.2 = true ∧
    is_handler (attempt_unaligned P n h).2.2 = false ∧
    ((attempt_unaligned P n h).1 = none →
      is_failed_attempt (attempt_unaligned P n h).2.2 = true) := by
  refine ⟨rfl, rfl, ?_⟩
  intro hn
  simp only [attempt_unaligned] at hn ⊢
  by_cases hp : (P.malloc n h).1 = 0
  · simp [is_failed_attempt, hp]
  · simp [hp] at hn

theorem attempt_aligned_kind (cfg : Build) (P : Platform H) (n a : Nat) (h : H) :
    is_attempt (attempt_aligned cfg P n a h).2.2 = true ∧
    is_handler (attempt_aligned cfg P n a h).2.2 = false ∧
    ((attempt_aligned cfg P n a h).1 = none →
      is_failed_attempt (attempt_aligned cfg P n a h).2.2 = true) := by
  unfold attempt_aligned
  cases hw : cfg.win32api with
  | true =>
    simp only [if_true]
    refine ⟨rfl, rfl, ?_⟩
    intro hn
    by_cases hp : (P.aligned_malloc n a h).1 = 0
    · simp [is_failed_attempt, hp]
    · simp [hp] at hn
  | false =>
    simp only [Bool.false_eq_true, if_false]
    refine ⟨rfl, rfl, ?_⟩
    intro hn
    by_cases hrc : (P.posix_memalign a n h).1.1 = 0
    · simp [hrc] at hn
    · simp [is_failed_attempt, hrc]

/-- The run of the retry loop when the first `n` attempts fail with a
returning handler and the next attempt ends the loop at once. -/
theorem retry_loop_after_rounds (cfg : Build) (P : Platform H)
    (att : H → Option Ptr × H × Event)
    (hkind : ∀ h, is_attempt (att h).2.2 = true ∧ is_handler (att h).2.2 = false ∧
      ((att h).1 = none → is_failed_attempt (att h).2.2 = true))
    (n fuel : Nat) (w wn : World H) (hfuel : n < fuel)
    (hr : failed_rounds P att n w = some wn)
    (hend : (att wn.heap).1 = none → wn.new_handler = 0) :
    (retry_loop cfg P att fuel w).1 =
        some (match (att wn.heap).1 with
          | some p => .ret p
          | none => if cfg.exceptions then .throw .bad_alloc else .ret 0) ∧
      (retry_loop cfg P att fuel w).2.1 = ⟨(att wn.heap).2.1, wn.new_handler⟩ ∧
      (retry_loop cfg P att fuel w).2.2.countP is_handler = n ∧
      (retry_loop cfg P att fuel w).2.2.countP is_attempt = n + 1 ∧
      retry_shape (retry_loop cfg P att fuel w).2.2 = true ∧
      (retry_loop cfg P att fuel w).2.2.getLast? = some (att wn.heap).2.2 ∧
      (retry_loop cfg P att fuel w).2.2.length = 2 * n + 1 := by
  obtain ⟨m, rfl⟩ : ∃ m, fuel = n + (m + 1) := ⟨fuel - n - 1, by omega⟩
  have hlast : retry_loop cfg P att (m + 1) wn =
      (some (match (att wn.heap).1 with
          | some p => .ret p
          | none => if cfg.exceptions then .throw .bad_alloc else .ret 0),
        ⟨(att wn.heap).2.1, wn.new_handler⟩, [(att wn.heap).2.2]) := by
    rcases hatt : (att wn.heap).1 with _ | q
    · have h0 := hend hatt
      by_cases hexc : cfg.exceptions = true <;> simp [retry_loop, hatt, h0, hexc]
    · simp [retry_loop, hatt]
  rw [retry_loop_rounds cfg P att n (m + 1) w wn hr, hlast]
  simp only [emit]
  refine ⟨trivial, trivial, ?_, ?_, ?_, ?_, ?_⟩
  · rw [List.countP_append, rounds_trace_handlers P att (fun h => (hkind h).2.1)]
    simp [List.countP_cons, (hkind wn.heap).2.1]
  · rw [List.countP_append, rounds_trace_attempts P att (fun h => (hkind h).1)]
    simp [List.countP_cons, (hkind wn.heap).1]
  · exact rounds_trace_shape P att (fun h => (hkind h).2.2) n w wn hr _ (hkind wn.heap).1
  · simp
  · simp [rounds_trace_length]

/-! ## The claims about the allocation layer -/

/-- C1: every call that `operator new(size)` and `operator new(size, alignment)`
make to the platform allocation primitive asks for 1 byte when `size` is 0 and
for `size` bytes otherwise, in every run and every unfinished part of a run; and
when `operator new(0)` returns normally in the build with exceptions, its result
is non-null and is the pointer `malloc(1)` returned in the last call made. -/
theorem C1_zero_size_normalized (cfg : Build) (P : Platform H) (fuel size alignment : Nat)
    (w : World H) :
    (∀ e ∈ (operator_new cfg P fuel size w).2.2,
      asks_for (if size = 0 then 1 else size) e = true) ∧
    (∀ e ∈ (operator_new_aligned cfg P fuel size alignment w).2.2,
      asks_for (if size = 0 then 1 else size) e = true) ∧
    (∀ p, cfg.exceptions = true → (operator_new cfg P fuel 0 w).1 = some (.ret p) →
      p ≠ 0 ∧ (operator_new cfg P fuel 0 w).2.2.getLast? = some (.malloc 1 p)) := by
  refine ⟨?_, ?_, ?_⟩
  · intro e he
    rw [operator_new_eq] at he
    rcases retry_loop_events cfg P _ fuel w e he with h | ⟨h, rfl⟩
    · exact asks_for_of_handler _ e h
    · simp [attempt_unaligned, asks_for, requested_bytes]
  · intro e he
    rw [operator_new_aligned_eq] at he
    rcases retry_loop_events cfg P _ fuel w e he with h | ⟨h, rfl⟩
    · exact asks_for_of_handler _ e h
    · rw [attempt_aligned_event]
      cases cfg.win32api <;> simp [asks_for, requested_bytes]
  · intro p hexc hret
    rw [operator_new_eq] at hret ⊢
    obtain ⟨h, h1, h2⟩ := retry_loop_ret cfg P _ fuel w p hret (Or.inl hexc)
    obtain ⟨hp, hev⟩ := attempt_unaligned_some P _ h p h1
    refine ⟨hp, ?_⟩
    rw [h2, hev]
    rfl

/-- C1 at concrete inputs: `operator new(0)` on the bump allocator returns
address 4096 obtained from `malloc(1)`; after a failed attempt the calls of
`operator new(0)` and `operator new(0, 4)` still ask for 1 byte. -/
theorem C1_zero_size_normalized_witness :
    asks_for (if 0 = 0 then 1 else 0) (.malloc 1 4096) = true ∧
    asks_for (if 0 = 0 then 1 else 0) (.posix_memalign 8 1 0 4104) = true ∧
    (operator_new posix_exc demo 2 0 (demo_world 1 1)).1 = some (.ret 4096) ∧
    (4096 ≠ 0 ∧ (operator_new posix_exc demo 2 0 (demo_world 1 1)).2.2.getLast?
      = some (.malloc 1 4096)) :=
  ⟨(C1_zero_size_normalized posix_exc demo 2 0 4 (demo_world 1 1)).1 (.malloc 1 4096)
      (by decide),
    (C1_zero_size_normalized posix_exc demo 2 0 4 (demo_world 1 1)).2.1
      (.posix_memalign 8 1 0 4104) (by decide),
    by decide,
    (C1_zero_size_normalized posix_exc demo 2 0 4 (demo_world 1 1)).2.2 4096 rfl (by decide)⟩

/-- C2: when the first `k` attempts fail with a handler that returns and the
next attempt fails with no handler installed, `operator new(size)` and
`operator new(size, alignment)` end on that attempt, which is the last platform
call of the run (the calls made are the `2 * k` of the earlier rounds and this
one): they raise `bad_alloc` in the build with exceptions and return the null
pointer in the build without.  Conversely, in the build with exceptions a normal
return is never null (for `posix_memalign`, provided a successful call stores a
non-null pointer). -/
theorem C2_no_handler_failure (cfg : Build) (P : Platform H) (size alignment k fuel : Nat)
    (w wk : World H) :
    (k < fuel →
      failed_rounds P (attempt_unaligned P (requested_bytes size)) k w = some wk →
      (P.malloc (requested_bytes size) wk.heap).1 = 0 → wk.new_handler = 0 →
      (operator_new cfg P fuel size w).1
          = some (if cfg.exceptions then .throw .bad_alloc else .ret 0) ∧
        (operator_new cfg P fuel size w).2.1
          = ⟨(P.malloc (requested_bytes size) wk.heap).2, 0⟩ ∧
        (operator_new cfg P fuel size w).2.2.getLast?
          = some (.malloc (requested_bytes size) 0) ∧
        (operator_new cfg P fuel size w).2.2.length = 2 * k + 1) ∧
    (k < fuel →
      failed_rounds P
        (attempt_aligned cfg P (requested_bytes size) (effective_alignment P alignment)) k w
        = some wk →
      (attempt_aligned cfg P (requested_bytes size) (effective_alignment P alignment)
        wk.heap).1 = none →
      wk.new_handler = 0 →
      (operator_new_aligned cfg P fuel size alignment w).1
          = some (if cfg.exceptions then .throw .bad_alloc else .ret 0) ∧
        (operator_new_aligned cfg P fuel size alignment w).2.1
          = ⟨(attempt_aligned cfg P (requested_bytes size) (effective_alignment P alignment)
              wk.heap).2.1, 0⟩ ∧
        (operator_new_aligned cfg P fuel size alignment w).2.2.getLast?
          = some (attempt_aligned cfg P (requested_bytes size)
              (effective_alignment P alignment) wk.heap).2.2 ∧
        (operator_new_aligned cfg P fuel size alignment w).2.2.length = 2 * k + 1) ∧
    (cfg.exceptions = true →
      ∀ p, (operator_new cfg P fuel size w).1 = some (.ret p) → p ≠ 0) ∧
    (cfg.exceptions = true → (cfg.win32api = false → PosixNonNull P) →
      ∀ p, (operator_new_aligned cfg P fuel size alignment w).1 = some (.ret p) → p ≠ 0) := by
  refine ⟨?_, ?_, ?_, ?_⟩
  · intro hfuel hr hfail hnh
    have hnone : (attempt_unaligned P (requested_bytes size) wk.heap).1 = none := by
      simp [attempt_unaligned, hfail]
    obtain ⟨h1, h2, _, _, _, h6, h7⟩ := retry_loop_after_rounds cfg P _
      (attempt_unaligned_kind P (requested_bytes size)) k fuel w wk hfuel hr (fun _ => hnh)
    rw [operator_new_eq]
    refine ⟨?_, ?_, ?_, h7⟩
    · rw [h1, hnone]
    · rw [h2, hnh]; rfl
    · rw [h6, attempt_unaligned_event, hfail]
  · intro hfuel hr hnone hnh
    obtain ⟨h1, h2, _, _, _, h6, h7⟩ := retry_loop_after_rounds cfg P _
      (attempt_aligned_kind cfg P (requested_bytes size) (effective_alignment P alignment))
      k fuel w wk hfuel hr (fun _ => hnh)
    rw [operator_new_aligned_eq]
    refine ⟨?_, ?_, h6, h7⟩
    · rw [h1, hnone]
    · rw [h2, hnh]
  · intro hexc p hret
    rw [operator_new_eq] at hret
    obtain ⟨h, h1, _⟩ := retry_loop_ret cfg P _ fuel w p hret (Or.inl hexc)
    exact (attempt_unaligned_some P _ h p h1).1
  · intro hexc hposix p hret
    rw [operator_new_aligned_eq] at hret
    obtain ⟨h, h1, _⟩ := retry_loop_ret cfg P _ fuel w p hret (Or.inl hexc)
    rcases attempt_aligned_some cfg P _ _ h p h1 with ⟨_, hp, _⟩ | ⟨hw, hrc, hp⟩
    · exact hp
    · rw [hp]
      refine hposix hw _ _ h ?_ hrc
      unfold requested_bytes
      split <;> omega

/-- The bump allocator keeps the promise of `posix_memalign`. -/
theorem demo_posix_non_null : PosixNonNull demo := by
  intro a n h _ hrc
  simp only [demo] at hrc ⊢
  by_cases hc : a = 0 ∨ h.failures ≠ 0
  · simp [hc] at hrc
  · simp only [hc, if_false]
    have ha : a ≠ 0 := fun h0 => hc (Or.inl h0)
    exact Nat.mul_ne_zero ha (Nat.succ_ne_zero _)

/-- C2 at concrete inputs: one failed round with the slot-clearing handler, then
a failure with no handler; and successful allocations that are not null. -/
theorem C2_no_handler_failure_witness :
    ((operator_new posix_exc demo 2 16 (demo_world 2 2)).1 = some (.throw .bad_alloc) ∧
      (operator_new posix_exc demo 2 16 (demo_world 2 2)).2.1 = ⟨⟨0, 4096, []⟩, 0⟩ ∧
      (operator_new posix_exc demo 2 16 (demo_world 2 2)).2.2.getLast?
        = some (.malloc 16 0) ∧
      (operator_new posix_exc demo 2 16 (demo_world 2 2)).2.2.length = 3) ∧
    ((operator_new_aligned posix_noexc demo 2 16 4 (demo_world 2 2)).1 = some (.ret 0) ∧
      (operator_new_aligned posix_noexc demo 2 16 4 (demo_world 2 2)).2.1
        = ⟨⟨0, 4096, []⟩, 0⟩ ∧
      (operator_new_aligned posix_noexc demo 2 16 4 (demo_world 2 2)).2.2.getLast?
        = some (.posix_memalign 8 16 12 0) ∧
      (operator_new_aligned posix_noexc demo 2 16 4 (demo_world 2 2)).2.2.length = 3) ∧
    (operator_new posix_exc demo 2 16 (demo_world 0 0)).1 = some (.ret 4096) ∧
    4096 ≠ 0 ∧
    (operator_new_aligned posix_exc demo 2 16 4 (demo_world 0 0)).1 = some (.ret 4104) ∧
    4104 ≠ 0 :=
  ⟨(C2_no_handler_failure posix_exc demo 16 4 1 2 (demo_world 2 2) ⟨⟨1, 4096, []⟩, 0⟩).1
      (by decide) (by decide) (by decide) rfl,
    (C2_no_handler_failure posix_noexc demo 16 4 1 2 (demo_world 2 2) ⟨⟨1, 4096, []⟩, 0⟩).2.1
      (by decide) (by decide) (by decide) rfl,
    by decide,
    (C2_no_handler_failure posix_exc demo 16 4 1 2 (demo_world 0 0) (demo_world 0 0)).2.2.1
      rfl 4096 (by decide),
    by decide,
    (C2_no_handler_failure posix_exc demo 16 4 1 2 (demo_world 0 0) (demo_world 0 0)).2.2.2
      rfl (fun _ => demo_posix_non_null) 4104 (by decide)⟩

/-- C3: when the first `n` attempts fail with a handler installed that returns
normally and attempt `n + 1` succeeds with pointer `p`, then, given fuel for
`n + 1` iterations, `operator new(size)` finishes and returns `p`, having invoked
the handler exactly `n` times and the primitive exactly `n + 1` times, in the
order failed attempt, handler, ..., failed attempt, handler, attempt, the last
call being the one that produced `p`; the same holds for
`operator new(size, alignment)`. -/
theorem C3_retry_until_success (cfg : Build) (P : Platform H) (size alignment n fuel : Nat)
    (w wn : World H) (p : Ptr) :
    (n < fuel →
      failed_rounds P (attempt_unaligned P (requested_bytes size)) n w = some wn →
      (attempt_unaligned P (requested_bytes size) wn.heap).1 = some p →
      (operator_new cfg P fuel size w).1 = some (.ret p) ∧
        (operator_new cfg P fuel size w).2.2.countP is_handler = n ∧
        (operator_new cfg P fuel size w).2.2.countP is_attempt = n + 1 ∧
        retry_shape (operator_new cfg P fuel size w).2.2 = true ∧
        (operator_new cfg P fuel size w).2.2.getLast?
          = some (.malloc (requested_bytes size) p)) ∧
    (n < fuel →
      failed_rounds P
        (attempt_aligned cfg P (requested_bytes size) (effective_alignment P alignment)) n w
        = some wn →
      (attempt_aligned cfg P (requested_bytes size) (effective_alignment P alignment)
        wn.heap).1 = some p →
      (operator_new_aligned cfg P fuel size alignment w).1 = some (.ret p) ∧
        (operator_new_aligned cfg P fuel size alignment w).2.2.countP is_handler = n ∧
        (operator_new_aligned cfg P fuel size alignment w).2.2.countP is_attempt = n + 1 ∧
        retry_shape (operator_new_aligned cfg P fuel size alignment w).2.2 = true ∧
        (operator_new_aligned cfg P fuel size alignment w).2.2.getLast?
          = some (attempt_aligned cfg P (requested_bytes size)
              (effective_alignment P alignment) wn.heap).2.2) := by
  refine ⟨?_, ?_⟩
  · intro hfuel hr hs
    obtain ⟨h1, _, h3, h4, h5, h6, _⟩ := retry_loop_after_rounds cfg P _
      (attempt_unaligned_kind P (requested_bytes size)) n fuel w wn hfuel hr
      (fun hnone => by rw [hs] at hnone; exact absurd hnone (by simp))
    rw [operator_new_eq]
    refine ⟨?_, h3, h4, h5, ?_⟩
    · rw [h1, hs]
    · rw [h6, (attempt_unaligned_some P _ _ p hs).2]
  · intro hfuel hr hs
    obtain ⟨h1, _, h3, h4, h5, h6, _⟩ := retry_loop_after_rounds cfg P _
      (attempt_aligned_kind cfg P (requested_bytes size) (effective_alignment P alignment))
      n fuel w wn hfuel hr
      (fun hnone => by rw [hs] at hnone; exact absurd hnone (by simp))
    rw [operator_new_aligned_eq]
    refine ⟨?_, h3, h4, h5, h6⟩
    rw [h1, hs]

/-- C3 at concrete inputs: two failed attempts with handler `1`, then success. -/
theorem C3_retry_until_success_witness :
    ((operator_new posix_exc demo 3 0 (demo_world 2 1)).1 = some (.ret 4096) ∧
      (operator_new posix_exc demo 3 0 (demo_world 2 1)).2.2.countP is_handler = 2 ∧
      (operator_new posix_exc demo 3 0 (demo_world 2 1)).2.2.countP is_attempt = 2 + 1 ∧
      retry_shape (operator_new posix_exc demo 3 0 (demo_world 2 1)).2.2 = true ∧
      (operator_new posix_exc demo 3 0 (demo_world 2 1)).2.2.getLast?
        = some (.malloc (requested_bytes 0) 4096)) ∧
    ((operator_new_aligned win32_exc demo 3 0 16 (demo_world 2 1)).1 = some (.ret 4112) ∧
      (operator_new_aligned win32_exc demo 3 0 16 (demo_world 2 1)).2.2.countP is_handler
        = 2 ∧
      (operator_new_aligned win32_exc demo 3 0 16 (demo_world 2 1)).2.2.countP is_attempt
        = 2 + 1 ∧
      retry_shape (operator_new_aligned win32_exc demo 3 0 16 (demo_world 2 1)).2.2 = true ∧
      (operator_new_aligned win32_exc demo 3 0 16 (demo_world 2 1)).2.2.getLast?
        = some (attempt_aligned win32_exc demo (requested_bytes 0)
            (effective_alignment demo 16) (demo_world 0 1).heap).2.2) :=
  ⟨(C3_retry_until_success posix_exc demo 0 16 2 3 (demo_world 2 1) (demo_world 0 1) 4096).1
      (by decide) (by decide) (by decide),
    (C3_retry_until_success win32_exc demo 0 16 2 3 (demo_world 2 1) (demo_world 0 1) 4112).2
      (by decide) (by decide) (by decide)⟩

/-- C5: every alignment-aware primitive call of `operator new(size, alignment)`
passes `max(alignment, sizeof(void*))`; hence, when the primitives return
addresses that are multiples of the alignment they are given, every pointer it
returns is a multiple of `max(alignment, sizeof(void*))`. -/
theorem C5_alignment_raised (cfg : Build) (P : Platform H) (fuel size alignment : Nat)
    (w : World H) :
    (∀ e ∈ (operator_new_aligned cfg P fuel size alignment w).2.2,
      aligns_to (max alignment P.sizeof_voidp) e = true) ∧
    (ReturnsAligned P → ∀ p,
      (operator_new_aligned cfg P fuel size alignment w).1 = some (.ret p) →
        max alignment P.sizeof_voidp ∣ p) := by
  refine ⟨?_, ?_⟩
  · intro e he
    rw [operator_new_aligned_eq] at he
    rcases retry_loop_events cfg P _ fuel w e he with h | ⟨h, rfl⟩
    · exact aligns_to_of_handler _ e h
    · rw [attempt_aligned_event]
      cases cfg.win32api <;> simp [aligns_to, effective_alignment]
  · intro hal p hret
    by_cases hp : p = 0
    · rw [hp]; exact Nat.dvd_zero _
    · rw [operator_new_aligned_eq] at hret
      obtain ⟨h, h1, _⟩ := retry_loop_ret cfg P _ fuel w p hret (Or.inr hp)
      rcases attempt_aligned_some cfg P _ _ h p h1 with ⟨_, _, hq⟩ | ⟨_, hrc, hq⟩
      · rw [hq]; exact hal.2 _ _ _
      · rw [hq]; exact hal.1 _ _ _ hrc

/-- The bump allocator returns aligned addresses. -/
theorem demo_returns_aligned : ReturnsAligned demo := by
  refine ⟨?_, ?_⟩
  · intro a n h hrc
    simp only [demo] at hrc ⊢
    by_cases hc : a = 0 ∨ h.failures ≠ 0
    · simp [hc] at hrc
    · simp only [hc, if_false]
      exact Nat.dvd_mul_right _ _
  · intro a n h
    simp only [demo]
    by_cases hc : a = 0 ∨ h.failures ≠ 0
    · simp only [hc, if_true]
      exact Nat.dvd_zero _
    · simp only [hc, if_false]
      exact Nat.dvd_mul_right _ _

/-- C5 at a concrete input: a request for alignment 4 is passed on with
alignment 8 and served at address 4104, a multiple of 8. -/
theorem C5_alignment_raised_witness :
    aligns_to (max 4 demo.sizeof_voidp) (.posix_memalign 8 24 0 4104) = true ∧
    (operator_new_aligned posix_exc demo 1 24 4 (demo_world 0 0)).1 = some (.ret 4104) ∧
    max 4 demo.sizeof_voidp ∣ 4104 :=
  ⟨(C5_alignment_raised posix_exc demo 1 24 4 (demo_world 0 0)).1
      (.posix_memalign 8 24 0 4104) (by decide),
    by decide,
    (C5_alignment_raised posix_exc demo 1 24 4 (demo_world 0 0)).2 demo_returns_aligned 4104
      (by decide)⟩

/-- C10: the handler slot is read again after every failed attempt.  When the
primitive keeps failing and the slot is empty once the `k`-th handler invocation
has returned, `operator new(size)` and `operator new(size, alignment)` invoke a
handler exactly `k` times, make exactly `k + 1` primitive attempts and then fail
through the no-handler path (`bad_alloc` with exceptions, null without); and
when the first handler invoked leaves another handler `h2` in the slot and the
next attempt fails too, the fourth platform call is the invocation of `h2`. -/
theorem C10_handler_slot_reread (cfg : Build) (P : Platform H) (size alignment k fuel : Nat)
    (w wk : World H) :
    (1 ≤ k → k < fuel →
      failed_rounds P (attempt_unaligned P (requested_bytes size)) k w = some wk →
      wk.new_handler = 0 →
      (attempt_unaligned P (requested_bytes size) wk.heap).1 = none →
      (operator_new cfg P fuel size w).1
          = some (if cfg.exceptions then .throw .bad_alloc else .ret 0) ∧
        (operator_new cfg P fuel size w).2.2.countP is_handler = k ∧
        (operator_new cfg P fuel size w).2.2.countP is_attempt = k + 1) ∧
    (1 ≤ k → k < fuel →
      failed_rounds P
        (attempt_aligned cfg P (requested_bytes size) (effective_alignment P alignment)) k w
        = some wk →
      wk.new_handler = 0 →
      (attempt_aligned cfg P (requested_bytes size) (effective_alignment P alignment)
        wk.heap).1 = none →
      (operator_new_aligned cfg P fuel size alignment w).1
          = some (if cfg.exceptions then .throw .bad_alloc else .ret 0) ∧
        (operator_new_aligned cfg P fuel size alignment w).2.2.countP is_handler = k ∧
        (operator_new_aligned cfg P fuel size alignment w).2.2.countP is_attempt = k + 1) ∧
    (2 ≤ fuel →
      failed_rounds P (attempt_unaligned P (requested_bytes size)) 1 w = some wk →
      wk.new_handler ≠ 0 →
      (attempt_unaligned P (requested_bytes size) wk.heap).1 = none →
      (operator_new cfg P fuel size w).2.2.take 4 =
        [(attempt_unaligned P (requested_bytes size) w.heap).2.2,
          .new_handler w.new_handler,
          (attempt_unaligned P (requested_bytes size) wk.heap).2.2,
          .new_handler wk.new_handler]) ∧
    (2 ≤ fuel →
      failed_rounds P
        (attempt_aligned cfg P (requested_bytes size) (effective_alignment P alignment)) 1 w
        = some wk →
      wk.new_handler ≠ 0 →
      (attempt_aligned cfg P (requested_bytes size) (effective_alignment P alignment)
        wk.heap).1 = none →
      (operator_new_aligned cfg P fuel size alignment w).2.2.take 4 =
        [(attempt_aligned cfg P (requested_bytes size) (effective_alignment P alignment)
            w.heap).2.2,
          .new_handler w.new_handler,
          (attempt_aligned cfg P (requested_bytes size) (effective_alignment P alignment)
            wk.heap).2.2,
          .new_handler wk.new_handler]) := by
  have key : ∀ (att : H → Option Ptr × H × Event) (m : Nat),
      failed_rounds P att 1 w = some wk → wk.new_handler ≠ 0 →
      (att wk.heap).1 = none →
      (retry_loop cfg P att (1 + (m + 1)) w).2.2.take 4 =
        [(att w.heap).2.2, .new_handler w.new_handler, (att wk.heap).2.2,
          .new_handler wk.new_handler] := by
    intro att m hr hnh hnone
    rw [retry_loop_rounds cfg P att 1 (m + 1) w wk hr]
    rcases hcall : call_new_handler P wk.new_handler
        ⟨(att wk.heap).2.1, wk.new_handler⟩ with ⟨x, w2⟩
    cases x <;>
      simp [emit, rounds_trace, retry_loop, hnone, hnh, hcall]
  refine ⟨?_, ?_, ?_, ?_⟩
  · intro _ hfuel hr hnh hnone
    obtain ⟨h1, _, h3, h4, _⟩ := retry_loop_after_rounds cfg P _
      (attempt_unaligned_kind P (requested_bytes size)) k fuel w wk hfuel hr (fun _ => hnh)
    rw [operator_new_eq]
    exact ⟨by rw [h1, hnone], h3, h4⟩
  · intro _ hfuel hr hnh hnone
    obtain ⟨h1, _, h3, h4, _⟩ := retry_loop_after_rounds cfg P _
      (attempt_aligned_kind cfg P (requested_bytes size) (effective_alignment P alignment))
      k fuel w wk hfuel hr (fun _ => hnh)
    rw [operator_new_aligned_eq]
    exact ⟨by rw [h1, hnone], h3, h4⟩
  · intro hfuel hr hnh hnone
    obtain ⟨m, rfl⟩ : ∃ m, fuel = 1 + (m + 1) := ⟨fuel - 2, by omega⟩
    rw [operator_new_eq]
    exact key _ m hr hnh hnone
  · intro hfuel hr hnh hnone
    obtain ⟨m, rfl⟩ : ∃ m, fuel = 1 + (m + 1) := ⟨fuel - 2, by omega⟩
    rw [operator_new_aligned_eq]
    exact key _ m hr hnh hnone

/-- C10 at concrete inputs: handler `6` installs handler `2`, which clears the
slot during the second invocation; handler `4` replaces itself with handler `1`,
which is invoked after the next failure. -/
theorem C10_handler_slot_reread_witness :
    ((operator_new posix_exc demo 3 16 (demo_world 3 6)).1 = some (.throw .bad_alloc) ∧
      (operator_new posix_exc demo 3 16 (demo_world 3 6)).2.2.countP is_handler = 2 ∧
      (operator_new posix_exc demo 3 16 (demo_world 3 6)).2.2.countP is_attempt = 2 + 1) ∧
    ((operator_new_aligned posix_noexc demo 3 16 4 (demo_world 3 6)).1 = some (.ret 0) ∧
      (operator_new_aligned posix_noexc demo 3 16 4 (demo_world 3 6)).2.2.countP is_handler
        = 2 ∧
      (operator_new_aligned posix_noexc demo 3 16 4 (demo_world 3 6)).2.2.countP is_attempt
        = 2 + 1) ∧
    (operator_new posix_exc demo 2 16 (demo_world 3 4)).2.2.take 4 =
      [.malloc 16 0, .new_handler 4, .malloc 16 0, .new_handler 1] ∧
    (operator_new_aligned posix_exc demo 2 16 4 (demo_world 3 4)).2.2.take 4 =
      [.posix_memalign 8 16 12 0, .new_handler 4, .posix_memalign 8 16 12 0,
        .new_handler 1] :=
  ⟨(C10_handler_slot_reread posix_exc demo 16 4 2 3 (demo_world 3 6)
      ⟨⟨1, 4096, []⟩, 0⟩).1 (by decide) (by decide) (by decide) rfl (by decide),
    (C10_handler_slot_reread posix_noexc demo 16 4 2 3 (demo_world 3 6)
      ⟨⟨1, 4096, []⟩, 0⟩).2.1 (by decide) (by decide) (by decide) rfl (by decide),
    (C10_handler_slot_reread posix_exc demo 16 4 2 2 (demo_world 3 4)
      ⟨⟨2, 4096, []⟩, 1⟩).2.2.1 (by decide) (by decide) (by decide) (by decide),
    (C10_handler_slot_reread posix_exc demo 16 4 2 2 (demo_world 3 4)
      ⟨⟨2, 4096, []⟩, 1⟩).2.2.2 (by decide) (by decide) (by decide) (by decide)⟩

/-- C6: every array form gives the same run as its scalar form: the same
platform calls and handler invocations, the same pointer or failure, the same
world; this holds for the throwing and nothrow allocation forms, unaligned and
aligned, and for every array deallocation form. -/
theorem C6_array_forms_delegate (cfg : Build) (P : Platform H) (fuel size alignment : Nat)
    (ptr : Ptr) (w : World H) :
    operator_new_array cfg P fuel size w = operator_new cfg P fuel size w ∧
    operator_new_array_aligned cfg P fuel size alignment w
      = operator_new_aligned cfg P fuel size alignment w ∧
    operator_new_array_nothrow cfg P fuel size w = operator_new_nothrow cfg P fuel size w ∧
    operator_new_array_aligned_nothrow cfg P fuel size alignment w
      = operator_new_aligned_nothrow cfg P fuel size alignment w ∧
    operator_delete_array P ptr w = operator_delete P ptr w ∧
    operator_delete_array_nothrow P ptr w = operator_delete P ptr w ∧
    operator_delete_array_sized P ptr size w = operator_delete P ptr w ∧
    operator_delete_array_aligned cfg P ptr alignment w
      = operator_delete_aligned cfg P ptr alignment w ∧
    operator_delete_array_aligned_nothrow cfg P ptr alignment w
      = operator_delete_aligned cfg P ptr alignment w ∧
    operator_delete_array_sized_aligned cfg P ptr size alignment w
      = operator_delete_aligned cfg P ptr alignment w :=
  ⟨rfl, rfl, rfl, rfl, rfl, rfl, rfl, rfl, rfl, rfl⟩

theorem operator_delete_spec (P : Platform H) (ptr : Ptr) (w : World H) :
    operator_delete P ptr w = release_spec P false ptr w := by
  unfold operator_delete release_spec
  by_cases h : ptr = 0 <;> simp [h]

theorem operator_delete_aligned_spec (cfg : Build) (P : Platform H) (ptr : Ptr)
    (alignment : Nat) (w : World H) :
    operator_delete_aligned cfg P ptr alignment w = release_spec P cfg.win32api ptr w := by
  unfold operator_delete_aligned release_spec
  by_cases h : ptr = 0 <;> simp [h]

/-- C7: each of the twelve deallocation forms does nothing when the pointer is
null (same world, no platform call) and otherwise makes exactly one platform
call, the release of that pointer: `free` for the unaligned forms; for the
aligned forms `_aligned_free` on the platform that needs it and `free`
otherwise.  The forms are total: none of them has a failing outcome. -/
theorem C7_deallocate_forms (cfg : Build) (P : Platform H) (ptr : Ptr) (size alignment : Nat)
    (w : World H) :
    operator_delete P ptr w = release_spec P false ptr w ∧
    operator_delete_nothrow P ptr w = release_spec P false ptr w ∧
    operator_delete_sized P ptr size w = release_spec P false ptr w ∧
    operator_delete_array P ptr w = release_spec P false ptr w ∧
    operator_delete_array_nothrow P ptr w = release_spec P false ptr w ∧
    operator_delete_array_sized P ptr size w = release_spec P false ptr w ∧
    operator_delete_aligned cfg P ptr alignment w = release_spec P cfg.win32api ptr w ∧
    operator_delete_aligned_nothrow cfg P ptr alignment w
      = release_spec P cfg.win32api ptr w ∧
    operator_delete_sized_aligned cfg P ptr size alignment w
      = release_spec P cfg.win32api ptr w ∧
    operator_delete_array_aligned cfg P ptr alignment w
      = release_spec P cfg.win32api ptr w ∧
    operator_delete_array_aligned_nothrow cfg P ptr alignment w
      = release_spec P cfg.win32api ptr w ∧
    operator_delete_array_sized_aligned cfg P ptr size alignment w
      = release_spec P cfg.win32api ptr w :=
  ⟨operator_delete_spec P ptr w, operator_delete_spec P ptr w, operator_delete_spec P ptr w,
    operator_delete_spec P ptr w, operator_delete_spec P ptr w, operator_delete_spec P ptr w,
    operator_delete_aligned_spec cfg P ptr alignment w,
    operator_delete_aligned_spec cfg P ptr alignment w,
    operator_delete_aligned_spec cfg P ptr alignment w,
    operator_delete_aligned_spec cfg P ptr alignment w,
    operator_delete_aligned_spec cfg P ptr alignment w,
    operator_delete_aligned_spec cfg P ptr alignment w⟩

/-- C8: the sized deallocation forms ignore their size argument: for any two
sizes they give the run of the unsized form with the same pointer (and
alignment), scalar and array alike. -/
theorem C8_sized_delete_ignores_size (cfg : Build) (P : Platform H) (ptr : Ptr)
    (s1 s2 alignment : Nat) (w : World H) :
    operator_delete_sized P ptr s1 w = operator_delete P ptr w ∧
    operator_delete_sized P ptr s2 w = operator_delete P ptr w ∧
    operator_delete_sized_aligned cfg P ptr s1 alignment w
      = operator_delete_aligned cfg P ptr alignment w ∧
    operator_delete_sized_aligned cfg P ptr s2 alignment w
      = operator_delete_aligned cfg P ptr alignment w ∧
    operator_delete_array_sized P ptr s1 w = operator_delete_array P ptr w ∧
    operator_delete_array_sized P ptr s2 w = operator_delete_array P ptr w ∧
    operator_delete_array_sized_aligned cfg P ptr s1 alignment w
      = operator_delete_array_aligned cfg P ptr alignment w ∧
    operator_delete_array_sized_aligned cfg P ptr s2 alignment w
      = operator_delete_array_aligned cfg P ptr alignment w :=
  ⟨rfl, rfl, rfl, rfl, rfl, rfl, rfl, rfl⟩

end NewDelete

namespace TupleAlloc

theorem tuple_alloc_move_elems (A : Nat) (src : List Elem) (pr : Probes) :
    (tuple_alloc_move A src pr).1 = src := by
  induction src generalizing pr with
  | nil => rfl
  | cons e es ih =>
    simp only [tuple_alloc_move, ih, List.cons.injEq, and_true]
    unfold construct_element
    split <;> rfl

theorem tuple_alloc_move_calls (A : Nat) (src : List Elem) (pr : Probes) :
    (tuple_alloc_move A src pr).2.2 =
      src.map (fun e => (⟨choose_form e.ty,
        if choose_form e.ty = .argument_only then none else some A, e.data⟩ : CtorCall)) := by
  induction src generalizing pr with
  | nil => rfl
  | cons e es ih =>
    simp only [tuple_alloc_move, ih, List.map_cons, List.cons.injEq, and_true]
    unfold construct_element
    split <;> simp_all

/-- C9: allocator-extended move construction of a tuple with element types
(plain, tag-leading, trailing) from a source holding `(a, b, c)` under
allocator `A` yields `(a, b, c)` at positions 0, 1, 2; both probe types record
that they were allocator-constructed; the plain element is constructed from the
argument alone, with no allocator.  For a source of any arity and any element
types, the form used at a position is the one its element type selects, and an
empty source invokes no element constructor. -/
theorem C9_alloc_move_dispatch (a b c : Int) (A : Nat) (pr : Probes) (src : List Elem) :
    get 0 (tuple_alloc_move A [⟨.plain, a⟩, ⟨.tag_leading, b⟩, ⟨.trailing, c⟩] pr).1
      = some a ∧
    get 1 (tuple_alloc_move A [⟨.plain, a⟩, ⟨.tag_leading, b⟩, ⟨.trailing, c⟩] pr).1
      = some b ∧
    get 2 (tuple_alloc_move A [⟨.plain, a⟩, ⟨.tag_leading, b⟩, ⟨.trailing, c⟩] pr).1
      = some c ∧
    (tuple_alloc_move A [⟨.plain, a⟩, ⟨.tag_leading, b⟩, ⟨.trailing, c⟩] pr).2.1
      = ⟨true, true⟩ ∧
    (tuple_alloc_move A [⟨.plain, a⟩, ⟨.tag_leading, b⟩, ⟨.trailing, c⟩] pr).2.2
      = [⟨.argument_only, none, a⟩, ⟨.tag_allocator_argument, some A, b⟩,
          ⟨.argument_allocator, some A, c⟩] ∧
    (tuple_alloc_move A src pr).1 = src ∧
    (tuple_alloc_move A src pr).2.2 =
      src.map (fun e => (⟨choose_form e.ty,
        if choose_form e.ty = .argument_only then none else some A, e.data⟩ : CtorCall)) ∧
    tuple_alloc_move A [] pr = ([], pr, []) :=
  ⟨rfl, rfl, rfl, rfl, rfl, tuple_alloc_move_elems A src pr, tuple_alloc_move_calls A src pr,
    rfl⟩

end TupleAlloc
